import Mathlib

/-!
Verification of the mini-mam API gateway core: a shallow embedding of
src/shared/auth.py (token service, credential store) and
src/api-gateway/app.py (rate limiting, routing, proxy dispatch),
with theorems settling the specification claims.

Timestamps are natural numbers counting whole seconds. Cryptography is
modelled symbolically: an HMAC signature is represented by the signing
secret itself, and a werkzeug password hash by the hashed password, so
that signature or hash verification succeeds exactly on a match.
-/

namespace MiniMam

/-- Decoded JWT payload as built by generate_token in src/shared/auth.py:
fields user_id, username, role, exp, iat. -/
structure Payload where
  user_id : Nat
  username : String
  role : String
  exp : Nat
  iat : Nat
deriving DecidableEq

/-- A serialized JWT string: either a well-formed token carrying its payload
and the secret whose HMAC signed it, or a malformed string that fails
parsing. -/
inductive Token where
  | signed (payload : Payload) (secret : String)
  | malformed (raw : String)
deriving DecidableEq

/-- The PyJWT exceptions caught by verify_token. ExpiredSignatureError is
raised for a correctly signed token past its exp; InvalidTokenError covers a
bad signature and malformed input. -/
inductive JwtError where
  | expiredSignature
  | invalidToken
deriving DecidableEq

/-- jwt.decode(token, secret, algorithms=[HS256]) evaluated at time now:
the signature is checked first, then the exp claim is validated with zero
leeway, expired exactly when exp <= now. -/
def jwtDecode (tok : Token) (secret : String) (now : Nat) : Except JwtError Payload :=
  match tok with
  | .malformed _ => .error .invalidToken
  | .signed p s =>
      if s ≠ secret then .error .invalidToken
      else if p.exp ≤ now then .error .expiredSignature
      else .ok p

/-- generate_token(user_id, username, role): payload with exp 24 hours after
now and iat = now, signed with the current secret. -/
def generate_token (secret : String) (now : Nat) (user_id : Nat)
    (username role : String) : Token :=
  .signed { user_id := user_id, username := username, role := role,
            exp := now + 24 * 3600, iat := now } secret

/-- verify_token(token): returns the payload on success and None on either
ExpiredSignatureError or InvalidTokenError. -/
def verify_token (tok : Token) (secret : String) (now : Nat) : Option Payload :=
  match jwtDecode tok secret now with
  | .ok p => some p
  | .error _ => none

/-- One stored credential record, an entry of HARDCODED_USERS. -/
structure UserRecord where
  password_hash : String
  role : String
  user_id : Nat
deriving DecidableEq

/-- werkzeug generate_password_hash, modelled symbolically. -/
def generate_password_hash (password : String) : String := password

/-- werkzeug check_password_hash: true exactly when the hash matches the
supplied password. -/
def check_password_hash (hash password : String) : Bool := hash == password

/-- get_hardcoded_users(): the fixed two-user table seeded from the
configured admin and user passwords. -/
def get_hardcoded_users (admin_password user_password : String) :
    String → Option UserRecord :=
  fun name =>
    if name = "admin" then
      some { password_hash := generate_password_hash admin_password,
             role := "admin", user_id := 1 }
    else if name = "user" then
      some { password_hash := generate_password_hash user_password,
             role := "user", user_id := 2 }
    else none

/-- The identity dictionary returned by authenticate_user. -/
structure Identity where
  user_id : Nat
  username : String
  role : String
deriving DecidableEq

/-- authenticate_user(username, password) over a credential store: None when
the username is absent or the password hash does not match. -/
def authenticate_user (users : String → Option UserRecord)
    (username password : String) : Option Identity :=
  match users username with
  | none => none
  | some u =>
      if check_password_hash u.password_hash password then
        some { user_id := u.user_id, username := username, role := u.role }
      else none

example : verify_token (generate_token "k" 0 1 "admin" "admin") "k" 100 =
    some { user_id := 1, username := "admin", role := "admin",
           exp := 86400, iat := 0 } := by decide

example : verify_token (generate_token "k" 0 1 "admin" "admin") "k" 86400 = none := by
  decide

example : authenticate_user (get_hardcoded_users "admin123" "user123")
    "admin" "admin123" =
    some { user_id := 1, username := "admin", role := "admin" } := by decide

/-! Gateway model: src/api-gateway/app.py. -/

/-- HTTP methods relevant to the gateway routes. -/
inductive Method where
  | GET | POST | PUT | DELETE | PATCH | HEAD | OPTIONS
deriving DecidableEq

/-- The value of an inbound Authorization header: a Bearer token, or any
other string, which get_token_from_header rejects. -/
inductive AuthHeader where
  | bearer (tok : Token)
  | nonBearer (raw : String)
deriving DecidableEq

/-- The JSON body of a login request, with either field possibly absent. -/
structure LoginBody where
  username : Option String
  password : Option String
deriving DecidableEq

/-- An inbound HTTP request as the gateway handlers read it: method, the
optional Authorization header, Content-Type, query parameters, the JSON body
for proxied POST and PUT, and the JSON credentials body for login. -/
structure Request where
  method : Method
  authorization : Option AuthHeader
  contentType : Option String
  args : List (String × String)
  jsonBody : Option String
  loginJson : Option LoginBody
deriving DecidableEq

/-- get_token_from_header(): the token of a Bearer Authorization header,
None when the header is absent or does not start with Bearer. -/
def get_token_from_header (req : Request) : Option Token :=
  match req.authorization with
  | some (.bearer t) => some t
  | _ => none

/-- An outbound header value: a plain string, or the forwarded Authorization
header, kept structured (the code forwards the raw header string, empty when
absent). -/
inductive HVal where
  | str (s : String)
  | fwdAuth (a : Option AuthHeader)
deriving DecidableEq

/-- The outbound header dictionary built by proxy_request: Content-Type
defaulting to application/json, the forwarded Authorization header, the
gateway User-Agent, and, when request.user is set, the three identity
headers. Host and Content-Length are popped afterwards but never occur in
this dictionary, so the pop is a no-op. -/
def buildHeaders (req : Request) (user : Option Payload) : List (String × HVal) :=
  let base : List (String × HVal) :=
    [("Content-Type", .str (req.contentType.getD "application/json")),
     ("Authorization", .fwdAuth req.authorization),
     ("User-Agent", .str "API-Gateway")]
  match user with
  | some p => base ++
      [("X-User-ID", .str (toString p.user_id)),
       ("X-Username", .str p.username),
       ("X-User-Role", .str p.role)]
  | none => base

/-- An outbound HTTP call from the gateway to a backend service. -/
structure BackendCall where
  method : Method
  url : String
  headers : List (String × HVal)
  params : Option (List (String × String))
  jsonBody : Option String
deriving DecidableEq

/-- The outcome of a backend call: a response with status, raw content and
headers; a connection-level failure (requests.exceptions.ConnectionError);
or any other exception raised while making the request. -/
inductive BackendResult where
  | response (status : Nat) (content : String) (headers : List (String × String))
  | connectionError
  | otherError
deriving DecidableEq

/-- The body of a gateway response: a jsonify error object with an error
field and an optional message field, the login success object, the user
objects of the auth endpoints, the health body, the aggregated status body,
a Flask- or limiter-generated error page, or raw relayed backend content. -/
inductive Body where
  | jsonError (error : String) (message : Option String)
  | jsonLogin (token : Token) (user_id : Nat) (username role : String)
  | jsonUser (payload : Payload)
  | jsonHealth
  | jsonStatus (services : List (String × String))
  | flaskError
  | raw (content : String)
deriving DecidableEq

/-- A gateway response: status code, body, and the response headers (empty
for synthesized jsonify responses, the backend headers for relays). -/
structure Response where
  status : Nat
  body : Body
  headers : List (String × String)
deriving DecidableEq

/-- The four logical backend services of the SERVICES registry. -/
inductive ServiceName where
  | assets | files | transcode | search
deriving DecidableEq

/-- The logical name string of a service. -/
def ServiceName.name : ServiceName → String
  | .assets => "assets"
  | .files => "files"
  | .transcode => "transcode"
  | .search => "search"

/-- Turning one backend result into the gateway response: relay body, status
and headers unchanged; synthesize 503 naming the service on connection
failure; synthesize 500 on any other failure. -/
def relayResult (service_name : String) : BackendResult → Response
  | .response st c hs => { status := st, body := .raw c, headers := hs }
  | .connectionError =>
      { status := 503,
        body := .jsonError (service_name ++ " service unavailable") none,
        headers := [] }
  | .otherError =>
      { status := 500, body := .jsonError "Internal server error" none,
        headers := [] }

/-- The target URL built by proxy_request: base/api/service, with the
subpath, when present, appended verbatim after the service segment. -/
def targetUrl (base : String) (s : ServiceName) : Option String → String
  | some sub => base ++ "/api/" ++ s.name ++ "/" ++ sub
  | none => base ++ "/api/" ++ s.name

/-- proxy_request(service_name, request, subpath): builds the target URL and
headers, forwards with the inbound method (GET with query parameters, POST
and PUT with the JSON body, DELETE with neither, anything else 405 without a
call), and relays the backend result; returns the response together with the
list of backend calls made. -/
def proxy_request (services : ServiceName → String) (service : ServiceName)
    (req : Request) (subpath : Option String) (user : Option Payload)
    (backend : BackendCall → BackendResult) : Response × List BackendCall :=
  let service_url := services service
  let target_url := targetUrl service_url service subpath
  let headers := buildHeaders req user
  match req.method with
  | .GET =>
      let call : BackendCall :=
        { method := .GET, url := target_url, headers := headers,
          params := some req.args, jsonBody := none }
      (relayResult service.name (backend call), [call])
  | .POST =>
      let call : BackendCall :=
        { method := .POST, url := target_url, headers := headers,
          params := none, jsonBody := req.jsonBody }
      (relayResult service.name (backend call), [call])
  | .PUT =>
      let call : BackendCall :=
        { method := .PUT, url := target_url, headers := headers,
          params := none, jsonBody := req.jsonBody }
      (relayResult service.name (backend call), [call])
  | .DELETE =>
      let call : BackendCall :=
        { method := .DELETE, url := target_url, headers := headers,
          params := none, jsonBody := none }
      (relayResult service.name (backend call), [call])
  | _ =>
      ({ status := 405, body := .jsonError "Method not allowed" none,
         headers := [] }, [])

/-- The require_auth decorator: 401 when no Bearer token is present, 401
when verification fails, otherwise the wrapped handler runs with the
verified payload as request.user. Handlers return their response paired
with the backend calls they made. -/
def require_auth (secret : String) (now : Nat)
    (f : Payload → Response × List BackendCall) (req : Request) :
    Response × List BackendCall :=
  match get_token_from_header req with
  | none =>
      ({ status := 401,
         body := .jsonError "Authentication required" (some "No token provided"),
         headers := [] }, [])
  | some tok =>
      match verify_token tok secret now with
      | none =>
          ({ status := 401,
             body := .jsonError "Authentication failed"
               (some "Invalid or expired token"),
             headers := [] }, [])
      | some payload => f payload

/-- The require_role decorator: as require_auth, then 403 when the verified
role differs from the required one. Imported by the gateway but applied to
no route. -/
def require_role (required_role : String) (secret : String) (now : Nat)
    (f : Payload → Response × List BackendCall) (req : Request) :
    Response × List BackendCall :=
  match get_token_from_header req with
  | none =>
      ({ status := 401,
         body := .jsonError "Authentication required" (some "No token provided"),
         headers := [] }, [])
  | some tok =>
      match verify_token tok secret now with
      | none =>
          ({ status := 401,
             body := .jsonError "Authentication failed"
               (some "Invalid or expired token"),
             headers := [] }, [])
      | some payload =>
          if payload.role ≠ required_role then
            ({ status := 403,
               body := .jsonError "Insufficient permissions"
                 (some ("Role " ++ required_role ++ " required")),
               headers := [] }, [])
          else f payload

/-! Rate limiter: flask_limiter with fixed windows, keyed per client address
and per endpoint, one window per configured limit item. -/

/-- One fixed rate-limit window: post-increment request count and the window
start time. -/
structure Window where
  count : Nat
  window_start : Nat
deriving DecidableEq

/-- One hit against a single limit of quota per duration: the window resets
when it has elapsed, the counter is incremented unconditionally, and the hit
is allowed exactly when the post-increment count is within the quota. -/
def limitHit (quota duration now : Nat) (w : Option Window) : Bool × Window :=
  let w0 : Window :=
    match w with
    | none => { count := 0, window_start := now }
    | some w =>
        if duration ≤ now - w.window_start then
          { count := 0, window_start := now }
        else w
  let c := w0.count + 1
  (c ≤ quota, { count := c, window_start := w0.window_start })

/-- The view functions of the gateway app, the scope keys of the rate
limiter. -/
inductive Endpoint where
  | health | login | authVerify | authMe
  | assets | files | transcode | search
  | apiStatus
deriving DecidableEq

/-- The limiter state: per client key, endpoint and limit index, the current
window, absent before the first hit. -/
def LimiterState : Type := String → Endpoint → Nat → Option Window

/-- The empty limiter state of a freshly started gateway process. -/
def LimiterState.empty : LimiterState := fun _ _ _ => none

/-- Store one window in the limiter state. -/
def LimiterState.put (st : LimiterState) (client : String) (e : Endpoint)
    (i : Nat) (w : Window) : LimiterState :=
  fun c e2 j => if c = client ∧ e2 = e ∧ j = i then some w else st c e2 j

/-- The limits applying to each endpoint, as (quota, window seconds): the
decorated per-route limits, and for the undecorated health endpoint the
default limits of 200 per day and 50 per hour. -/
def routeLimits : Endpoint → List (Nat × Nat)
  | .health => [(200, 86400), (50, 3600)]
  | .login => [(10, 60)]
  | .authVerify => [(100, 60)]
  | .authMe => [(100, 60)]
  | .assets => [(100, 60)]
  | .files => [(50, 60)]
  | .transcode => [(30, 60)]
  | .search => [(200, 60)]
  | .apiStatus => [(50, 60)]

/-- Hit each limit of an endpoint in order, stopping at the first breach;
every evaluated hit increments its window. Returns whether the request is
allowed and the updated state. -/
def hitLimits (client : String) (e : Endpoint) (now : Nat) :
    List (Nat × Nat) → Nat → LimiterState → Bool × LimiterState
  | [], _, st => (true, st)
  | (quota, dur) :: rest, i, st =>
      let r := limitHit quota dur now (st client e i)
      let st2 := st.put client e i r.2
      if r.1 then hitLimits client e now rest (i + 1) st2 else (false, st2)

/-! Gateway router: the routes of app.py in order, with the Flask method
check, the limiter, authentication and dispatch. -/

/-- The matchable routes of the gateway, plus the unmatched-path case. -/
inductive Route where
  | health
  | login
  | authVerify
  | authMe
  | api (s : ServiceName) (subpath : Option String)
  | apiStatus
  | notFound
deriving DecidableEq

/-- The limiter scope of each route. -/
def Route.endpoint : Route → Endpoint
  | .health => .health
  | .login => .login
  | .authVerify => .authVerify
  | .authMe => .authMe
  | .api .assets _ => .assets
  | .api .files _ => .files
  | .api .transcode _ => .transcode
  | .api .search _ => .search
  | .apiStatus => .apiStatus
  | .notFound => .health

/-- The methods each route is registered for; a mismatch is rejected by the
routing layer with 405 before the limiter and the view run. -/
def Route.allowedMethods : Route → List Method
  | .health => [.GET]
  | .login => [.POST]
  | .authVerify => [.POST]
  | .authMe => [.GET]
  | .api _ none => [.GET, .POST]
  | .api _ (some _) => [.GET, .POST, .PUT, .DELETE]
  | .apiStatus => [.GET]
  | .notFound => []

/-- The gateway configuration: signing secret, the two seeded passwords and
the backend base URLs. -/
structure Config where
  secret : String
  admin_password : String
  user_password : String
  serviceUrl : ServiceName → String

/-- The credential store of a configured gateway. -/
def Config.users (cfg : Config) : String → Option UserRecord :=
  get_hardcoded_users cfg.admin_password cfg.user_password

/-- The login view: 400 on a missing or incomplete credentials body, 401 on
failed authentication, otherwise 200 with a fresh token and the user
object. -/
def loginHandler (cfg : Config) (now : Nat) (req : Request) : Response :=
  match req.loginJson with
  | none =>
      { status := 400,
        body := .jsonError "Missing credentials"
          (some "Username and password are required"), headers := [] }
  | some data =>
      match data.username, data.password with
      | some username, some password =>
          match authenticate_user cfg.users username password with
          | none =>
              { status := 401,
                body := .jsonError "Authentication failed"
                  (some "Invalid username or password"), headers := [] }
          | some user =>
              { status := 200,
                body := .jsonLogin
                  (generate_token cfg.secret now user.user_id user.username
                    user.role)
                  user.user_id user.username user.role,
                headers := [] }
      | _, _ =>
          { status := 400,
            body := .jsonError "Missing credentials"
              (some "Username and password are required"), headers := [] }

/-- One health probe of the /api/status view: the textual status recorded
for a service from the outcome of GET base_url/health. -/
def probeStatus : BackendResult → String
  | .response 200 _ _ => "healthy"
  | .response _ _ _ => "unhealthy"
  | .connectionError => "unavailable"
  | .otherError => "unavailable"

/-- The health probe call issued by /api/status for one service. -/
def probeCall (cfg : Config) (s : ServiceName) : BackendCall :=
  { method := .GET, url := cfg.serviceUrl s ++ "/health", headers := [],
    params := none, jsonBody := none }

/-- The /api/status view: probes every registered service, collecting each
outcome; one failed probe does not abort the others. -/
def statusHandler (cfg : Config) (backend : BackendCall → BackendResult) :
    Response × List BackendCall :=
  let order : List ServiceName := [.assets, .files, .transcode, .search]
  let calls := order.map (probeCall cfg)
  ({ status := 200,
     body := .jsonStatus
       (order.map fun s => (s.name, probeStatus (backend (probeCall cfg s)))),
     headers := [] }, calls)

/-- The route view functions, bound to their decorators as in app.py; each
returns the response and the backend calls made. -/
def routeHandler (cfg : Config) (backend : BackendCall → BackendResult)
    (now : Nat) (route : Route) (req : Request) : Response × List BackendCall :=
  match route with
  | .health => ({ status := 200, body := .jsonHealth, headers := [] }, [])
  | .login => (loginHandler cfg now req, [])
  | .authVerify =>
      require_auth cfg.secret now
        (fun p => ({ status := 200, body := .jsonUser p, headers := [] }, []))
        req
  | .authMe =>
      require_auth cfg.secret now
        (fun p => ({ status := 200, body := .jsonUser p, headers := [] }, []))
        req
  | .api s sub =>
      require_auth cfg.secret now
        (fun p => proxy_request cfg.serviceUrl s req sub (some p) backend) req
  | .apiStatus =>
      require_auth cfg.secret now (fun _ => statusHandler cfg backend) req
  | .notFound =>
      ({ status := 404, body := .jsonError "Endpoint not found" none,
         headers := [] }, [])

/-- One full gateway request: routing (404 for an unmatched path, 405 for a
method the route is not registered for), then the rate limiter (429 on
breach), then the view with its decorators. -/
def gateway (cfg : Config) (backend : BackendCall → BackendResult)
    (st : LimiterState) (client : String) (now : Nat) (route : Route)
    (req : Request) : Response × List BackendCall × LimiterState :=
  match route with
  | .notFound =>
      ({ status := 404, body := .jsonError "Endpoint not found" none,
         headers := [] }, [], st)
  | _ =>
      if req.method ∉ route.allowedMethods then
        ({ status := 405, body := .flaskError, headers := [] }, [], st)
      else
        let lim := hitLimits client route.endpoint now
          (routeLimits route.endpoint) 0 st
        if lim.1 then
          let h := routeHandler cfg backend now route req
          (h.1, h.2, lim.2)
        else
          ({ status := 429, body := .flaskError, headers := [] }, [], lim.2)

/-- Run a sequence of gateway requests, threading the limiter state and
collecting the responses. -/
def gatewayRun (cfg : Config) (backend : BackendCall → BackendResult) :
    LimiterState → List (Nat × String × Route × Request) →
    List Response × LimiterState
  | st, [] => ([], st)
  | st, (now, client, route, req) :: rest =>
      let r := gateway cfg backend st client now route req
      let rs := gatewayRun cfg backend r.2.2 rest
      (r.1 :: rs.1, rs.2)

/-! Theorems. -/

/-- A concrete admin payload with expiry e, used in concrete evaluations. -/
def adminPayload (e : Nat) : Payload :=
  { user_id := 1, username := "admin", role := "admin", exp := e, iat := 0 }

/-- C1: a token verifies exactly when it is well formed, signed with the
current secret, and the current time is strictly before its expiry;
generate_token sets exp exactly 24 hours after iat; hence a freshly issued
token verifies at any time within 24 hours of issuance and fails once 24
hours have elapsed. -/
theorem claim_C1_token_validity (secret : String) (tok : Token) (p : Payload)
    (uid t now : Nat) (username role : String) :
    (verify_token tok secret now = some p ↔
      tok = .signed p secret ∧ now < p.exp) ∧
    (∃ pl, generate_token secret t uid username role = .signed pl secret ∧
      pl.iat = t ∧ pl.exp = pl.iat + 24 * 3600) ∧
    (now < t + 24 * 3600 →
      verify_token (generate_token secret t uid username role) secret now =
        some { user_id := uid, username := username, role := role,
               exp := t + 24 * 3600, iat := t }) ∧
    (t + 24 * 3600 ≤ now →
      verify_token (generate_token secret t uid username role) secret now =
        none) := by
  refine ⟨?_, ⟨_, rfl, rfl, rfl⟩, ?_, ?_⟩
  · cases tok with
    | malformed raw => simp [verify_token, jwtDecode]
    | signed q s =>
        by_cases hs : s = secret
        · subst hs
          by_cases he : q.exp ≤ now
          · simp only [verify_token, jwtDecode, ne_eq, not_true_eq_false,
              if_false, if_pos he]
            constructor
            · intro h; cases h
            · rintro ⟨hq, hlt⟩
              injection hq with hq _
              subst hq
              omega
          · simp only [verify_token, jwtDecode, ne_eq, not_true_eq_false,
              if_false, if_neg he]
            constructor
            · rintro h
              injection h with h
              subst h
              exact ⟨rfl, by omega⟩
            · rintro ⟨hq, _⟩
              injection hq with hq _
              subst hq; rfl
        · simp only [verify_token, jwtDecode, ne_eq, hs, not_false_eq_true,
            if_true]
          constructor
          · intro h; cases h
          · rintro ⟨hq, _⟩
            injection hq with _ hq
            exact absurd hq hs
  · intro h
    have : ¬ (t + 24 * 3600 ≤ now) := by omega
    simp [verify_token, jwtDecode, generate_token, this]
  · intro h
    simp [verify_token, jwtDecode, generate_token, h]

/-- Witness for C1 at secret k, identity (1, admin, admin), issuance time 0:
verification succeeds at time 5 and fails at time 86400. -/
theorem claim_C1_token_validity_witness :
    ((5 : Nat) < 0 + 24 * 3600 ∧
      verify_token (generate_token "k" 0 1 "admin" "admin") "k" 5 =
        some { user_id := 1, username := "admin", role := "admin",
               exp := 0 + 24 * 3600, iat := 0 }) ∧
    (0 + 24 * 3600 ≤ (86400 : Nat) ∧
      verify_token (generate_token "k" 0 1 "admin" "admin") "k" 86400 =
        none) :=
  ⟨⟨by decide,
    (claim_C1_token_validity "k" (.malformed "x")
      { user_id := 0, username := "", role := "", exp := 0, iat := 0 }
      1 0 5 "admin" "admin").2.2.1 (by decide)⟩,
   ⟨by decide,
    (claim_C1_token_validity "k" (.malformed "x")
      { user_id := 0, username := "", role := "", exp := 0, iat := 0 }
      1 0 86400 "admin" "admin").2.2.2 (by decide)⟩⟩

/-- C2 counterexample: at time 10 under secret k, a correctly signed token
whose expiry 5 has passed and a token signed with a different secret make
verify_token return the identical outcome none, although jwt.decode raises
distinct errors for them; the caller of verify_token cannot distinguish the
two failure modes. -/
theorem claim_C2_counterexample :
    verify_token (.signed (adminPayload 5) "k") "k" 10 =
      verify_token (.signed (adminPayload 100) "other") "k" 10 ∧
    verify_token (.signed (adminPayload 5) "k") "k" 10 = none ∧
    jwtDecode (.signed (adminPayload 5) "k") "k" 10 =
      .error .expiredSignature ∧
    jwtDecode (.signed (adminPayload 100) "other") "k" 10 =
      .error .invalidToken :=
  ⟨rfl, rfl, rfl, rfl⟩

/-- C2 (amended): jwt.decode distinguishes an expired well-signed token
(ExpiredSignatureError) from a badly signed or malformed one
(InvalidTokenError), but verify_token maps every decode error to None, so
the two failure modes are not distinguishable by the caller. -/
theorem claim_C2_failure_modes (p : Payload) (s s2 : String) (now : Nat) :
    (p.exp ≤ now → jwtDecode (.signed p s) s now = .error .expiredSignature) ∧
    (s2 ≠ s → jwtDecode (.signed p s2) s now = .error .invalidToken) ∧
    (∀ raw, jwtDecode (.malformed raw) s now = .error .invalidToken) ∧
    (∀ tok e, jwtDecode tok s now = .error e →
      verify_token tok s now = none) := by
  refine ⟨fun he => ?_, fun hs => ?_, fun raw => rfl, fun tok e h => ?_⟩
  · simp [jwtDecode, he]
  · simp [jwtDecode, hs]
  · simp [verify_token, h]

/-- Witness for C2 (amended) at concrete expired and badly signed tokens. -/
theorem claim_C2_failure_modes_witness :
    jwtDecode (.signed (adminPayload 5) "k") "k" 10 =
      .error .expiredSignature ∧
    jwtDecode (.signed (adminPayload 100) "o") "k" 10 =
      .error .invalidToken ∧
    verify_token (.signed (adminPayload 5) "k") "k" 10 = none :=
  ⟨(claim_C2_failure_modes (adminPayload 5) "k" "o" 10).1 (by decide),
   (claim_C2_failure_modes (adminPayload 100) "k" "o" 10).2.1 (by decide),
   (claim_C2_failure_modes (adminPayload 5) "k" "o" 10).2.2.2 _ _
     ((claim_C2_failure_modes (adminPayload 5) "k" "o" 10).1 (by decide))⟩

/-- C3: every (username, password) pair present in the credential store
authenticates to an identity with the stored user_id, username and role, and
generate_token on that identity followed by verify_token within the lifetime
under the same secret yields claims with the same username and role. -/
theorem claim_C3_roundtrip (ap up username password secret : String)
    (rec : UserRecord) (t now : Nat)
    (hu : get_hardcoded_users ap up username = some rec)
    (hp : check_password_hash rec.password_hash password = true)
    (hnow : now < t + 24 * 3600) :
    authenticate_user (get_hardcoded_users ap up) username password =
      some { user_id := rec.user_id, username := username,
             role := rec.role } ∧
    ∃ claims,
      verify_token (generate_token secret t rec.user_id username rec.role)
          secret now = some claims ∧
        claims.user_id = rec.user_id ∧ claims.username = username ∧
        claims.role = rec.role := by
  constructor
  · simp [authenticate_user, hu, hp]
  · refine ⟨{ user_id := rec.user_id, username := username,
              role := rec.role, exp := t + 24 * 3600, iat := t },
      ?_, rfl, rfl, rfl⟩
    have : ¬ (t + 24 * 3600 ≤ now) := by omega
    simp [verify_token, jwtDecode, generate_token, this]

/-- Witness for C3 at the admin record with its seeded password. -/
theorem claim_C3_roundtrip_witness :
    authenticate_user (get_hardcoded_users "admin123" "user123")
        "admin" "admin123" =
      some { user_id := 1, username := "admin", role := "admin" } ∧
    ∃ claims,
      verify_token (generate_token "k" 0 1 "admin" "admin") "k" 5 =
          some claims ∧
        claims.user_id = 1 ∧ claims.username = "admin" ∧
        claims.role = "admin" :=
  claim_C3_roundtrip "admin123" "user123" "admin" "admin123" "k"
    { password_hash := "admin123", role := "admin", user_id := 1 } 0 5
    (by decide) (by decide) (by decide)

/-- The default backend base URLs of the SERVICES registry. -/
def defaultUrls : ServiceName → String
  | .assets => "http://localhost:8001"
  | .files => "http://localhost:8002"
  | .transcode => "http://localhost:8003"
  | .search => "http://localhost:8004"

/-- A concrete gateway configuration for concrete evaluations. -/
def cfg0 : Config :=
  { secret := "k", admin_password := "admin123", user_password := "user123",
    serviceUrl := defaultUrls }

/-- A fresh admin token under cfg0, issued at time 0. -/
def tok0 : Token := generate_token "k" 0 1 "admin" "admin"

/-- A concrete GET request carrying tok0 as Bearer token. -/
def getReq : Request :=
  { method := .GET, authorization := some (.bearer tok0),
    contentType := none, args := [("q", "1")], jsonBody := none,
    loginJson := none }

/-- A concrete GET request with no Authorization header. -/
def anonReq : Request :=
  { method := .GET, authorization := none, contentType := none,
    args := [], jsonBody := none, loginJson := none }

/-- C4: a request to a protected api route that carries no Bearer token, or
whose token fails verification, is answered 401 by the decorated view with
no backend call made; at the gateway level the same holds whenever routing
and the rate limiter let the request through to the view. -/
theorem claim_C4_auth_shortcircuit (cfg : Config)
    (backend : BackendCall → BackendResult) (st : LimiterState)
    (client : String) (now : Nat) (s : ServiceName) (sub : Option String)
    (req : Request)
    (h : get_token_from_header req = none ∨
      ∃ tok, get_token_from_header req = some tok ∧
        verify_token tok cfg.secret now = none) :
    ((routeHandler cfg backend now (.api s sub) req).1.status = 401 ∧
      (routeHandler cfg backend now (.api s sub) req).2 = []) ∧
    (req.method ∈ (Route.api s sub).allowedMethods →
      (hitLimits client (Route.api s sub).endpoint now
        (routeLimits (Route.api s sub).endpoint) 0 st).1 = true →
      (gateway cfg backend st client now (.api s sub) req).1.status = 401 ∧
        (gateway cfg backend st client now (.api s sub) req).2.1 = []) := by
  have hview : (routeHandler cfg backend now (.api s sub) req).1.status = 401 ∧
      (routeHandler cfg backend now (.api s sub) req).2 = [] := by
    rcases h with h | ⟨tok, htok, hver⟩
    · simp [routeHandler, require_auth, h]
    · simp [routeHandler, require_auth, htok, hver]
  refine ⟨hview, fun hm hl => ?_⟩
  have hm2 : ¬ req.method ∉ (Route.api s sub).allowedMethods := by
    simpa using hm
  simp only [gateway, if_neg hm2, hl, if_true]
  exact hview

/-- Witness for C4: a GET to /api/assets with no Authorization header on a
fresh limiter state is answered 401 with no backend call. -/
theorem claim_C4_auth_shortcircuit_witness :
    ((routeHandler cfg0 (fun _ => .response 200 "ok" []) 5
        (.api .assets none) anonReq).1.status = 401 ∧
      (routeHandler cfg0 (fun _ => .response 200 "ok" []) 5
        (.api .assets none) anonReq).2 = []) ∧
    ((gateway cfg0 (fun _ => .response 200 "ok" []) LimiterState.empty
        "c" 5 (.api .assets none) anonReq).1.status = 401 ∧
      (gateway cfg0 (fun _ => .response 200 "ok" []) LimiterState.empty
        "c" 5 (.api .assets none) anonReq).2.1 = []) := by
  have h := claim_C4_auth_shortcircuit cfg0 (fun _ => .response 200 "ok" [])
    LimiterState.empty "c" 5 .assets none anonReq (Or.inl rfl)
  exact ⟨h.1, h.2 (by decide) rfl⟩

/-- C5: for any supported method, when the backend connection fails the
dispatcher synthesizes 503 with a body naming the unreachable service by its
logical name. -/
theorem claim_C5_backend_unavailable (services : ServiceName → String)
    (s : ServiceName) (req : Request) (sub : Option String)
    (user : Option Payload) (backend : BackendCall → BackendResult)
    (hm : req.method = .GET ∨ req.method = .POST ∨ req.method = .PUT ∨
      req.method = .DELETE)
    (hb : ∀ c, backend c = .connectionError) :
    (proxy_request services s req sub user backend).1 =
      { status := 503,
        body := .jsonError (s.name ++ " service unavailable") none,
        headers := [] } := by
  rcases hm with h | h | h | h <;>
    simp [proxy_request, h, hb, relayResult]

/-- Witness for C5: an unreachable assets backend makes a GET on /api/assets
return 503 with the body naming assets. -/
theorem claim_C5_backend_unavailable_witness :
    (proxy_request defaultUrls .assets getReq none
        (some (adminPayload 86400)) (fun _ => .connectionError)).1 =
      { status := 503,
        body := .jsonError ("assets" ++ " service unavailable") none,
        headers := [] } :=
  claim_C5_backend_unavailable defaultUrls .assets getReq none
    (some (adminPayload 86400)) (fun _ => .connectionError)
    (Or.inl rfl) (fun _ => rfl)

/-- C6: the dispatcher forwards only GET, POST, PUT and DELETE; any other
method yields 405 with no backend call; GET forwards the query parameters
and no body, POST and PUT forward the JSON body and no query parameters,
DELETE forwards neither. -/
theorem claim_C6_method_handling (services : ServiceName → String)
    (s : ServiceName) (req : Request) (sub : Option String)
    (user : Option Payload) (backend : BackendCall → BackendResult) :
    ((req.method ≠ .GET ∧ req.method ≠ .POST ∧ req.method ≠ .PUT ∧
        req.method ≠ .DELETE) →
      proxy_request services s req sub user backend =
        ({ status := 405, body := .jsonError "Method not allowed" none,
           headers := [] }, [])) ∧
    (req.method = .GET → ∃ call,
      (proxy_request services s req sub user backend).2 = [call] ∧
        call.method = .GET ∧ call.params = some req.args ∧
        call.jsonBody = none) ∧
    (req.method = .POST → ∃ call,
      (proxy_request services s req sub user backend).2 = [call] ∧
        call.method = .POST ∧ call.params = none ∧
        call.jsonBody = req.jsonBody) ∧
    (req.method = .PUT → ∃ call,
      (proxy_request services s req sub user backend).2 = [call] ∧
        call.method = .PUT ∧ call.params = none ∧
        call.jsonBody = req.jsonBody) ∧
    (req.method = .DELETE → ∃ call,
      (proxy_request services s req sub user backend).2 = [call] ∧
        call.method = .DELETE ∧ call.params = none ∧
        call.jsonBody = none) := by
  cases hm : req.method <;> simp [proxy_request, hm]

/-- Witness for C6: a PATCH on /api/assets/1 yields 405 with no backend
call, and a GET forwards the query parameters. -/
theorem claim_C6_method_handling_witness :
    proxy_request defaultUrls .assets
        { getReq with method := .PATCH } (some "1")
        (some (adminPayload 86400)) (fun _ => .response 200 "ok" []) =
      ({ status := 405, body := .jsonError "Method not allowed" none,
         headers := [] }, []) ∧
    ∃ call,
      (proxy_request defaultUrls .assets getReq (some "1")
          (some (adminPayload 86400))
          (fun _ => .response 200 "ok" [])).2 = [call] ∧
        call.method = .GET ∧ call.params = some getReq.args ∧
        call.jsonBody = none :=
  ⟨(claim_C6_method_handling defaultUrls .assets
      { getReq with method := .PATCH } (some "1")
      (some (adminPayload 86400)) (fun _ => .response 200 "ok" [])).1
      (by exact ⟨by decide, by decide, by decide, by decide⟩),
   (claim_C6_method_handling defaultUrls .assets getReq (some "1")
      (some (adminPayload 86400)) (fun _ => .response 200 "ok" [])).2.1
      (by decide)⟩

/-- The backend call made by an authenticated GET through the gateway. -/
def getCall (cfg : Config) (s : ServiceName) (sub : Option String)
    (req : Request) (p : Payload) : BackendCall :=
  { method := .GET, url := targetUrl (cfg.serviceUrl s) s sub,
    headers := buildHeaders req (some p), params := some req.args,
    jsonBody := none }

/-- C7: an authenticated GET to a proxied route forwards to exactly
base/api/service/subpath (base/api/service when no subpath is given), with
the identity headers derived from the verified claims attached, and relays
the backend body, status code and headers unchanged. -/
theorem claim_C7_get_forwarding (cfg : Config)
    (backend : BackendCall → BackendResult) (now : Nat) (s : ServiceName)
    (sub : Option String) (req : Request) (tok : Token) (p : Payload)
    (htok : get_token_from_header req = some tok)
    (hver : verify_token tok cfg.secret now = some p)
    (hm : req.method = .GET) :
    routeHandler cfg backend now (.api s sub) req =
      (relayResult s.name (backend (getCall cfg s sub req p)),
        [getCall cfg s sub req p]) ∧
    (∀ x, sub = some x → (getCall cfg s sub req p).url =
      cfg.serviceUrl s ++ "/api/" ++ s.name ++ "/" ++ x) ∧
    (sub = none → (getCall cfg s sub req p).url =
      cfg.serviceUrl s ++ "/api/" ++ s.name) ∧
    ("X-User-ID", .str (toString p.user_id)) ∈
      (getCall cfg s sub req p).headers ∧
    ("X-Username", .str p.username) ∈ (getCall cfg s sub req p).headers ∧
    ("X-User-Role", .str p.role) ∈ (getCall cfg s sub req p).headers ∧
    (∀ st c hs, backend (getCall cfg s sub req p) = .response st c hs →
      relayResult s.name (backend (getCall cfg s sub req p)) =
        { status := st, body := .raw c, headers := hs }) := by
  refine ⟨?_, ?_, ?_, ?_, ?_, ?_, ?_⟩
  · simp [routeHandler, require_auth, htok, hver, proxy_request, hm, getCall]
  · rintro x rfl; rfl
  · rintro rfl; rfl
  · simp [getCall, buildHeaders]
  · simp [getCall, buildHeaders]
  · simp [getCall, buildHeaders]
  · intro st c hs h; rw [h]; rfl

/-- Witness for C7: a concrete authenticated GET to /api/assets/42 forwards
to the exact URL with identity headers and relays a 200 backend response. -/
theorem claim_C7_get_forwarding_witness :
    routeHandler cfg0 (fun _ => .response 200 "ok" [("a", "b")]) 5
        (.api .assets (some "42")) getReq =
      (relayResult "assets"
          ((fun _ => BackendResult.response 200 "ok" [("a", "b")])
            (getCall cfg0 .assets (some "42") getReq (adminPayload 86400))),
        [getCall cfg0 .assets (some "42") getReq (adminPayload 86400)]) ∧
    (getCall cfg0 .assets (some "42") getReq (adminPayload 86400)).url =
      "http://localhost:8001" ++ "/api/" ++ "assets" ++ "/" ++ "42" ∧
    ("X-User-ID", .str (toString (adminPayload 86400).user_id)) ∈
      (getCall cfg0 .assets (some "42") getReq (adminPayload 86400)).headers ∧
    relayResult "assets"
        ((fun _ => BackendResult.response 200 "ok" [("a", "b")])
          (getCall cfg0 .assets (some "42") getReq (adminPayload 86400))) =
      { status := 200, body := .raw "ok", headers := [("a", "b")] } := by
  have h := claim_C7_get_forwarding cfg0
    (fun _ => .response 200 "ok" [("a", "b")]) 5 .assets (some "42") getReq
    tok0 (adminPayload 86400) rfl (by decide) rfl
  exact ⟨h.1, h.2.1 "42" rfl, h.2.2.2.1, h.2.2.2.2.2.2 200 "ok" [("a", "b")] rfl⟩

/-- Run a sequence of hits at the given times against one limit, threading
the window and collecting each allow or reject outcome. -/
def limitRun (quota dur : Nat) : Option Window → List Nat → List Bool × Option Window
  | w, [] => ([], w)
  | w, t :: ts =>
      let r := limitHit quota dur t w
      let rest := limitRun quota dur (some r.2) ts
      (r.1 :: rest.1, rest.2)

/-- Hits within a window never reset it: each just increments the count. -/
theorem limitRun_within (quota dur t0 : Nat) :
    ∀ (ts : List Nat) (c : Nat),
      (∀ t ∈ ts, t0 ≤ t ∧ t - t0 < dur) →
      c + ts.length ≤ quota →
      limitRun quota dur (some { count := c, window_start := t0 }) ts =
        (List.replicate ts.length true,
          some { count := c + ts.length, window_start := t0 }) := by
  intro ts
  induction ts with
  | nil => intro c _ _; simp [limitRun]
  | cons t ts ih =>
      intro c h hq
      have ht := h t (List.mem_cons_self t ts)
      have hno : ¬ (dur ≤ t - t0) := by omega
      have hc : c + 1 ≤ quota := by
        have := ts.length
        simp only [List.length_cons] at hq
        omega
      simp only [limitRun, limitHit, hno, if_false]
      rw [ih (c + 1) (fun x hx => h x (List.mem_cons_of_mem t hx))
        (by simp only [List.length_cons] at hq; omega)]
      have h1 : decide (c + 1 ≤ quota) = true := by simp [hc]
      have h2 : c + 1 + ts.length = c + (ts.length + 1) := by omega
      simp [h1, h2, List.replicate_succ]

/-- limitRun distributes over list append. -/
theorem limitRun_append (quota dur : Nat) :
    ∀ (xs ys : List Nat) (w : Option Window),
      limitRun quota dur w (xs ++ ys) =
        ((limitRun quota dur w xs).1 ++
            (limitRun quota dur (limitRun quota dur w xs).2 ys).1,
          (limitRun quota dur (limitRun quota dur w xs).2 ys).2) := by
  intro xs
  induction xs with
  | nil => intro ys w; simp [limitRun]
  | cons x xs ih =>
      intro ys w
      simp only [List.cons_append, limitRun, List.append_eq]
      rw [ih]

/-- C9: with quota N per window W, starting fresh at t0, the first N
requests within one window are allowed and the (N+1)-th is rejected, the
rejected increment still counts (the counter reaches N+1), and the first
request made once W has elapsed from the window start is allowed again;
the login route is limited to 10 per minute, and a rejected hit on it makes
the gateway answer 429. -/
theorem claim_C9_fixed_window (N W t0 : Nat) (ts : List Nat) (tN tre : Nat)
    (hN : 1 ≤ N) (hlen : ts.length = N - 1)
    (hts : ∀ t ∈ ts, t0 ≤ t ∧ t - t0 < W)
    (htN : t0 ≤ tN ∧ tN - t0 < W)
    (hre : W ≤ tre - t0) :
    (limitRun N W none (t0 :: ts ++ [tN])).1 =
      List.replicate N true ++ [false] ∧
    (limitRun N W none (t0 :: ts ++ [tN])).2 =
      some { count := N + 1, window_start := t0 } ∧
    (limitHit N W tre (some { count := N + 1, window_start := t0 })).1 =
      true ∧
    routeLimits .login = [(10, 60)] ∧
    (∀ cfg backend st client now req, req.method = .POST →
      (hitLimits client .login now (routeLimits .login) 0 st).1 = false →
      (gateway cfg backend st client now .login req).1.status = 429) := by
  have hlen2 : 1 + ts.length = N := by omega
  have hwithin := limitRun_within N W t0 ts 1 hts (by omega)
  have hnoN : ¬ (W ≤ tN - t0) := by omega
  have h1 : decide (1 ≤ N) = true := by simp [hN]
  have key : limitRun N W none (t0 :: (ts ++ [tN])) =
      (true :: (List.replicate ts.length true ++ [false]),
        some { count := N + 1, window_start := t0 }) := by
    have hstep : limitRun N W none (t0 :: (ts ++ [tN])) =
        (true :: (limitRun N W
            (some { count := 1, window_start := t0 }) (ts ++ [tN])).1,
          (limitRun N W
            (some { count := 1, window_start := t0 }) (ts ++ [tN])).2) := by
      simp [limitRun, limitHit, h1]
    rw [hstep, limitRun_append, hwithin]
    have hlast : limitRun N W
        (some { count := 1 + ts.length, window_start := t0 }) [tN] =
        ([false], some { count := N + 1, window_start := t0 }) := by
      have hc : 1 + ts.length + 1 = N + 1 := by omega
      have hd : decide (1 + ts.length + 1 ≤ N) = false := by
        simp; omega
      simp [limitRun, limitHit, hnoN, hc, hd]
    simp [hlast]
  have hrep : true :: (List.replicate ts.length true ++ [false]) =
      List.replicate N true ++ [false] := by
    rw [← List.cons_append, ← List.replicate_succ]
    congr 2
    omega
  refine ⟨?_, ?_, ?_, rfl, ?_⟩
  · rw [show t0 :: ts ++ [tN] = t0 :: (ts ++ [tN]) from rfl, key]
    exact hrep
  · rw [show t0 :: ts ++ [tN] = t0 :: (ts ++ [tN]) from rfl, key]
  · simp [limitHit, hre, h1]
  · intro cfg backend st client now req hm hl
    simp [gateway, Route.allowedMethods, Route.endpoint, hm, hl]

/-- Witness for C9 at quota 2 per window 60: requests at 0, 10, 20 give
allowed, allowed, rejected with the counter at 3; a request at 60 is allowed
again; a client who exhausted the login quota gets 429 on login. -/
theorem claim_C9_fixed_window_witness :
    (limitRun 2 60 none (0 :: [10] ++ [20])).1 =
      List.replicate 2 true ++ [false] ∧
    (limitRun 2 60 none (0 :: [10] ++ [20])).2 =
      some { count := 2 + 1, window_start := 0 } ∧
    (limitHit 2 60 60 (some { count := 2 + 1, window_start := 0 })).1 =
      true ∧
    (gateway cfg0 (fun _ => .response 200 "ok" [])
        (fun _ _ _ => some { count := 10, window_start := 0 }) "c" 30 .login
        { anonReq with method := .POST }).1.status = 429 := by
  have h := claim_C9_fixed_window 2 60 0 [10] 20 60 (by decide) (by decide)
    (by decide) (by decide) (by decide)
  exact ⟨h.1, h.2.1, h.2.2.1,
    h.2.2.2.2 cfg0 (fun _ => .response 200 "ok" [])
      (fun _ _ _ => some { count := 10, window_start := 0 }) "c" 30
      { anonReq with method := .POST } rfl rfl⟩

/-- C8 counterexample: 51 GET /health requests from the same client at the
same instant, starting from a fresh gateway: the first 50 are answered 200
but the 51st is answered 429 by the default limit of 50 per hour — /health
does receive a 429, so it is not exempt from rate limiting. -/
theorem claim_C8_counterexample :
    ((gatewayRun cfg0 (fun _ => .response 200 "ok" []) LimiterState.empty
        (List.replicate 51 (0, "c", Route.health, anonReq))).1.map
      Response.status) = List.replicate 50 200 ++ [429] := by
  rfl

/-- C8 (amended): /health is not exempt from rate limiting, but its window
is per endpoint: whatever state the limiter holds for other routes (and for
other clients), a GET /health from a client whose own health windows are
fresh is answered 200 — so exhausting the quotas of all other routes leaves
/health reachable — while the 51st GET /health of one client within one hour
is itself answered 429 under the default limits of 200 per day and 50 per
hour. -/
theorem claim_C8_health_not_exempt (st : LimiterState) (client : String)
    (now : Nat) (cfg : Config) (backend : BackendCall → BackendResult)
    (req : Request) (hm : req.method = .GET)
    (h0 : st client .health 0 = none) (h1 : st client .health 1 = none) :
    (gateway cfg backend st client now .health req).1 =
      { status := 200, body := .jsonHealth, headers := [] } ∧
    routeLimits .health = [(200, 86400), (50, 3600)] ∧
    ((gatewayRun cfg0 (fun _ => .response 200 "ok" []) LimiterState.empty
        (List.replicate 51 (0, "c", Route.health, anonReq))).1.map
      Response.status) = List.replicate 50 200 ++ [429] := by
  refine ⟨?_, rfl, rfl⟩
  simp [gateway, Route.allowedMethods, Route.endpoint, routeLimits,
    hitLimits, limitHit, LimiterState.put, h0, h1, hm, routeHandler]

/-- Witness for C8 (amended): on a state where the same client has exhausted
every other route, a GET /health is still answered 200. -/
theorem claim_C8_health_not_exempt_witness :
    (gateway cfg0 (fun _ => .response 200 "ok" [])
        (fun _ e _ => if e = Endpoint.health then none
          else some { count := 1000, window_start := 0 })
        "c" 0 .health anonReq).1 =
      { status := 200, body := .jsonHealth, headers := [] } :=
  (claim_C8_health_not_exempt
    (fun _ e _ => if e = Endpoint.health then none
      else some { count := 1000, window_start := 0 })
    "c" 0 cfg0 (fun _ => .response 200 "ok" []) anonReq rfl
    (by simp) (by simp)).1

/-- A relayed backend result is the only way the dispatcher produces a 403:
its synthesized responses use 503 and 500. -/
theorem relayResult_status_403 (name : String) (r : BackendResult) :
    (relayResult name r).status = 403 →
    ∃ c, (relayResult name r).body = .raw c := by
  cases r with
  | response st c hs => intro _; exact ⟨c, rfl⟩
  | connectionError => intro h; simp [relayResult] at h
  | otherError => intro h; simp [relayResult] at h

/-- A 403 out of proxy_request can only be a relayed backend body. -/
theorem proxy_status_403 (services : ServiceName → String) (s : ServiceName)
    (req : Request) (sub : Option String) (user : Option Payload)
    (backend : BackendCall → BackendResult) :
    (proxy_request services s req sub user backend).1.status = 403 →
    ∃ c, (proxy_request services s req sub user backend).1.body = .raw c := by
  cases hm : req.method <;> simp only [proxy_request, hm] <;>
    first
      | exact relayResult_status_403 _ _
      | (intro h; exact absurd h (by decide))

/-- The login view only answers 400, 401 or 200. -/
theorem loginHandler_status (cfg : Config) (now : Nat) (req : Request) :
    (loginHandler cfg now req).status = 400 ∨
    (loginHandler cfg now req).status = 401 ∨
    (loginHandler cfg now req).status = 200 := by
  cases hj : req.loginJson with
  | none => simp [loginHandler, hj]
  | some data =>
      cases hu : data.username with
      | none => simp [loginHandler, hj, hu]
      | some u =>
          cases hp : data.password with
          | none => simp [loginHandler, hj, hu, hp]
          | some pw =>
              cases ha : authenticate_user cfg.users u pw <;>
                simp [loginHandler, hj, hu, hp, ha]

/-- If the wrapped handler can only answer 403 with a relayed body, so can
its require_auth wrapping: the auth rejections are 401. -/
theorem require_auth_status_403 (secret : String) (now : Nat)
    (f : Payload → Response × List BackendCall) (req : Request)
    (hf : ∀ p, (f p).1.status = 403 → ∃ c, (f p).1.body = .raw c) :
    (require_auth secret now f req).1.status = 403 →
    ∃ c, (require_auth secret now f req).1.body = .raw c := by
  cases htok : get_token_from_header req with
  | none => simp [require_auth, htok]
  | some tok =>
      cases hv : verify_token tok secret now with
      | none => simp [require_auth, htok, hv]
      | some p => simpa [require_auth, htok, hv] using hf p

/-- C10: no gateway route ever synthesizes a 403 — a 403 response can only
be a backend body relayed verbatim — because require_role is applied to no
route; and require_auth accepts every syntactically valid, unexpired token
regardless of its role, running the protected view with its claims. -/
theorem claim_C10_no_403 :
    (∀ cfg backend st client now route req,
      (gateway cfg backend st client now route req).1.status = 403 →
      ∃ c, (gateway cfg backend st client now route req).1.body = .raw c) ∧
    (∀ (secret : String) (now : Nat)
      (f : Payload → Response × List BackendCall) (req : Request) tok p,
      get_token_from_header req = some tok →
      verify_token tok secret now = some p →
      require_auth secret now f req = f p) := by
  constructor
  · intro cfg backend st client now route req
    cases route with
    | notFound => intro h; simp [gateway] at h
    | health =>
        simp only [gateway]
        split
        · intro h; simp at h
        · split
          · intro h; simp [routeHandler] at h
          · intro h; simp at h
    | login =>
        simp only [gateway]
        split
        · intro h; simp at h
        · split
          · simp only [routeHandler]
            intro h
            rcases loginHandler_status cfg now req with h4 | h4 | h4 <;>
              (rw [h] at h4; exact absurd h4 (by decide))
          · intro h; simp at h
    | authVerify =>
        simp only [gateway]
        split
        · intro h; simp at h
        · split
          · simp only [routeHandler]
            exact require_auth_status_403 _ _ _ _
              (fun p h => absurd h (by simp))
          · intro h; simp at h
    | authMe =>
        simp only [gateway]
        split
        · intro h; simp at h
        · split
          · simp only [routeHandler]
            exact require_auth_status_403 _ _ _ _
              (fun p h => absurd h (by simp))
          · intro h; simp at h
    | api s sub =>
        simp only [gateway]
        split
        · intro h; simp at h
        · split
          · simp only [routeHandler]
            exact require_auth_status_403 _ _ _ _
              (fun p => proxy_status_403 cfg.serviceUrl s req sub (some p)
                backend)
          · intro h; simp at h
    | apiStatus =>
        simp only [gateway]
        split
        · intro h; simp at h
        · split
          · simp only [routeHandler]
            exact require_auth_status_403 _ _ _ _
              (fun p h => absurd h (by simp [statusHandler]))
          · intro h; simp at h
  · intro secret now f req tok p htok hv
    simp [require_auth, htok, hv]

/-- Witness for C10: a backend 403 is relayed as a raw body, and a valid
token passes require_auth straight to the view. -/
theorem claim_C10_no_403_witness :
    (∃ c, (gateway cfg0 (fun _ => .response 403 "forbidden" [])
        LimiterState.empty "c" 5 (.api .assets none) getReq).1.body =
      .raw c) ∧
    require_auth "k" 5
        (fun _ => ({ status := 200, body := .jsonHealth, headers := [] },
          ([] : List BackendCall))) getReq =
      ({ status := 200, body := .jsonHealth, headers := [] }, []) :=
  ⟨claim_C10_no_403.1 cfg0 (fun _ => .response 403 "forbidden" [])
      LimiterState.empty "c" 5 (.api .assets none) getReq rfl,
   claim_C10_no_403.2 "k" 5
     (fun _ => ({ status := 200, body := .jsonHealth, headers := [] }, []))
     getReq tok0 (adminPayload 86400) rfl rfl⟩

end MiniMam
